import Mathlib

/-!
Verification of the ATLAS build orchestrator (easybuild easyblock for ATLAS).

The development shallowly embeds the `ATLAS` class of
`src/easybuild/easyblocks/a/ATLAS.py`: the per-package configuration record,
the configure / setparallelism / make / test / sanitycheck stages, and the
case-insensitive CPU-throttling pattern search used to classify configure
failures.  Stateful Python is rendered as explicit state passing; the fatal
logger (whose `error` call raises and aborts the stage) is rendered as an
early return carrying a diagnostic.  The shell-execution collaborator is a
function argument `shell : String → String × Int` returning captured output
and an exit status; every invocation of it is recorded so that claims about
"zero commands executed" are expressible.
-/

namespace Atlas

/-- Diagnostics of the error taxonomy.  The source signals each of these by a
fatal `self.log.error(msg)` call; the constructor carries the message built at
the corresponding call site. -/
inductive Diagnostic where
  | MissingDependency (msg : String)
  | EnvironmentSetupError (msg : String)
  | ThrottlingDetected (msg : String)
  | ConfigureFailed (msg : String)
  | SanityCheckFailed (msg : String)
deriving DecidableEq, Repr

/-- Manifest of expected install artifacts, the value stored in the
`sanityCheckPaths` option: relative file paths and directory paths. -/
structure SanityPaths where
  files : List String
  dirs : List String
deriving DecidableEq, Repr

/-- The mutable per-package configuration record.  `configopts` is the
ordered sequence of option fragments accumulated by `updatecfg` calls (the
source keeps them space-joined in one string; we keep the fragments, in
order).  `runtest` models the run-tests toggle (`none`/empty string are the
falsy Python values).  `parallelism` is the effective build parallelism. -/
structure ATLASCfg where
  ignorethrottling : Bool
  full_lapack : Bool
  sharedlibs : Bool
  configopts : List String
  preconfigopts : String
  startfrom : String
  runtest : Option String
  sanityCheckPaths : Option SanityPaths
  parallelism : Nat
deriving DecidableEq, Repr

/-- Environment-variable lookup capability: the three variables the
orchestrator reads (`os.getenv` returns `None` for an absent variable). -/
structure Env where
  SOFTROOTLAPACK : Option String
  CC : Option String
  F77 : Option String
deriving DecidableEq, Repr

/-- Toolkit options; the orchestrator only reads the position-independent-code
flag `self.tk.opts['pic']`. -/
structure TkOpts where
  pic : Bool
deriving DecidableEq, Repr

/-- Python rendering of an optional string under the percent-s format
specifier: an absent value (`None`) renders as the four-character string
"None", not as the empty string. -/
def pyStr : Option String → String
  | some s => s
  | none => "None"

/-- Truthiness of the optional-string model of a Python config value:
`None` and the empty string are falsy, any other string is truthy. -/
def truthy : Option String → Bool
  | none => false
  | some s => !s.isEmpty

/-- Lowercase an ASCII letter, leave every other character unchanged
(the case-insensitive regex match lowercases both sides). -/
def lowerChar (c : Char) : Char :=
  if 'A' ≤ c ∧ c ≤ 'Z' then Char.ofNat (c.toNat + 32) else c

/-- Membership of the regex character class of ASCII letters. -/
def asciiLetter (c : Char) : Bool :=
  ('a' ≤ c && c ≤ 'z') || ('A' ≤ c && c ≤ 'Z')

/-- Match of the throttling pattern at the head of a lowercased character
list: the literal "cpu throttling ", a (possibly empty) run of letters, then
the literal " enabled".  Greedy consumption of the letter run is exact here
because the following literal starts with a non-letter. -/
def throttlingAt (cs : List Char) : Bool :=
  let lit1 := "cpu throttling ".toList
  lit1.isPrefixOf cs &&
    " enabled".toList.isPrefixOf ((cs.drop lit1.length).dropWhile asciiLetter)

/-- Does the predicate hold on some suffix of the list? -/
def anySuffix (p : List Char → Bool) : List Char → Bool
  | [] => p []
  | c :: cs => p (c :: cs) || anySuffix p cs

/-- The source's `throttling_regexp.search(out)`: a case-insensitive search
anywhere in the captured output for "cpu throttling [a-zA-Z]* enabled". -/
def throttlingSearch (out : String) : Bool :=
  anySuffix throttlingAt (out.toList.map lowerChar)

/-- Message of the `MissingDependency` diagnostic (netlib LAPACK absent). -/
def missingLapackMsg : String :=
  "netlib's LAPACK library not available, required to build ATLAS with a full LAPACK library."

/-- Message of the `ThrottlingDetected` diagnostic, with its remediation
hint (disable throttling, or set ignorethrottling). -/
def throttlingMsg : String :=
  "Configure failed, because CPU throttling is enabled; ATLAS doesn't like that. You can either disable CPU throttling, or set 'ignorethrottling' to True in the ATLAS .eb spec file. Also see http://math-atlas.sourceforge.net/errata.html#cputhrottle ."

/-- Message of the generic `ConfigureFailed` diagnostic: it embeds the raw
captured output. -/
def configureFailedMsg (out : String) : String :=
  "configure output: " ++ out ++ "\nConfigure failed, not sure why (see output above)."

/-- Message of the `EnvironmentSetupError` raised when the obj build
directory cannot be created or entered. -/
def objdirErrMsg : String :=
  "Failed to create obj directory to build in."

/-- Outcome of a pipeline stage: the updated configuration, the final
working directory (a list of path components), the shell commands executed
in order, and `some` diagnostic exactly when the stage aborted fatally. -/
structure StageOutcome where
  cfg : ATLASCfg
  cwd : List String
  cmds : List String
  err : Option Diagnostic
deriving DecidableEq, Repr

/-- The configure command line the source assembles: pre-configure options,
the configure script one directory above (under `startfrom`), the install
prefix, then the accumulated config options space-joined. -/
def configureCmd (cfg : ATLASCfg) (installdir : String) : String :=
  cfg.preconfigopts ++ " " ++ cfg.startfrom ++ "/configure --prefix=" ++
    installdir ++ " " ++ String.intercalate " " cfg.configopts

/-- The option fragments accumulated by the first two configure steps: the
unconditional 64-bit flag, then the flag disabling the CPU-throttling check
when `ignorethrottling` is set. -/
def optsAfterThrottling (cfg : ATLASCfg) : List String :=
  let opts := cfg.configopts ++ ["-b 64"]
  if cfg.ignorethrottling then opts ++ ["-Si cputhrchk 0"] else opts

/-- The option fragments accumulated right before the compiler-naming flags:
the first two steps, then the netlib-LAPACK flag when `full_lapack` is set
(the LAPACK root rendered as Python renders the environment value), then the
build-variant and -fPIC flags when shared libraries or PIC are requested. -/
def preCompilerOpts (cfg : ATLASCfg) (env : Env) (tk : TkOpts) : List String :=
  let opts := optsAfterThrottling cfg
  let opts :=
    if cfg.full_lapack then
      opts ++ [" --with-netlib-lapack=" ++ pyStr env.SOFTROOTLAPACK ++ "/lib/liblapack.a"]
    else opts
  if cfg.sharedlibs || tk.pic then opts ++ ["-Fa alg -fPIC"] else opts

/-- The compiler-naming fragment built from the `CC` and `F77` environment
variables; the source embeds the raw `os.getenv` results via percent-s,
without validating that the variables are set. -/
def compilerFlag (env : Env) : String :=
  "-C ic " ++ pyStr env.CC ++ " -C if " ++ pyStr env.F77

/-- The `ATLAS.configure` stage.  `objdirOk` stands for success of the
`os.makedirs("obj"); os.chdir("obj")` pair (the source catches `OSError`
from either and aborts); `shell` is the shell-execution collaborator
returning captured output and exit status. -/
def configure (cfg : ATLASCfg) (env : Env) (tk : TkOpts) (installdir : String)
    (objdirOk : Bool) (shell : String → String × Int) (cwd0 : List String) :
    StageOutcome :=
  if cfg.full_lapack && env.SOFTROOTLAPACK.isNone then
    { cfg := { cfg with configopts := optsAfterThrottling cfg },
      cwd := cwd0, cmds := [],
      err := some (.MissingDependency missingLapackMsg) }
  else
    if objdirOk then
      let cwd := cwd0 ++ ["obj"]
      let cfg' := { cfg with
        configopts := preCompilerOpts cfg env tk ++ [compilerFlag env] }
      let cmd := configureCmd cfg' installdir
      let res := shell cmd
      if res.2 ≠ 0 then
        if throttlingSearch res.1 then
          { cfg := cfg', cwd := cwd, cmds := [cmd],
            err := some (.ThrottlingDetected throttlingMsg) }
        else
          { cfg := cfg', cwd := cwd, cmds := [cmd],
            err := some (.ConfigureFailed (configureFailedMsg res.1)) }
      else
        { cfg := cfg', cwd := cwd, cmds := [cmd], err := none }
    else
      { cfg := { cfg with configopts := preCompilerOpts cfg env tk },
        cwd := cwd0, cmds := [],
        err := some (.EnvironmentSetupError objdirErrMsg) }

namespace Application

/-- Modelled from the spec: the generic `Application.setparallelism` of the
framework (not under src/) records the given degree as the effective build
parallelism of the configuration record. -/
def setparallelism (cfg : ATLASCfg) (nr : Nat) : ATLASCfg :=
  { cfg with parallelism := nr }

/-- Modelled from the spec: the generic default build step (the driver's
"make"-equivalent, not under src/) runs one build command in the current
working directory at the configured parallelism and neither moves the
working directory nor touches the configuration record.  We record it as a
marker command. -/
def make (cfg : ATLASCfg) (cwd0 : List String) : StageOutcome :=
  { cfg := cfg, cwd := cwd0, cmds := ["<default build step>"], err := none }

/-- Modelled from the spec: the generic `Application.test` (not under src/)
runs the delegated test mechanism on the currently configured `runtest`
target; it reports failures without aborting.  We return the list of targets
it ran (one when the toggle holds a target). -/
def test (cfg : ATLASCfg) : List String :=
  match cfg.runtest with
  | some t => [t]
  | none => []

end Application

/-- The `ATLAS.setparallelism` override: it ignores any externally requested
degree still recorded in the configuration and forces parallelism 1 through
the generic setter. -/
def setparallelism (cfg : ATLASCfg) : ATLASCfg :=
  Application.setparallelism cfg 1

/-- The shared-library build command of the `make` stage, covering the four
variants. -/
def sharedLibsCmd : String := "make shared cshared ptshared cptshared"

/-- The `ATLAS.make` stage: the default build step, then — when shared
libraries are requested — enter `lib`, run the four-variant shared-library
command (its own failure is reported, not fatal), and step back up one
directory.  `chdirLibOk` and `chdirBackOk` stand for success of the two
`os.chdir` calls, whose `OSError` the source turns into a fatal error. -/
def make (cfg : ATLASCfg) (chdirLibOk chdirBackOk : Bool)
    (shell : String → String × Int) (cwd0 : List String) : StageOutcome :=
  let base := Application.make cfg cwd0
  if cfg.sharedlibs then
    if chdirLibOk then
      let cwd := cwd0 ++ ["lib"]
      let _res := shell sharedLibsCmd
      if chdirBackOk then
        { cfg := cfg, cwd := cwd.dropLast, cmds := base.cmds ++ [sharedLibsCmd],
          err := none }
      else
        { cfg := cfg, cwd := cwd, cmds := base.cmds ++ [sharedLibsCmd],
          err := some (.EnvironmentSetupError
            "Failed to get back to previous dir after building shared libs.") }
    else
      { cfg := cfg, cwd := cwd0, cmds := base.cmds,
        err := some (.EnvironmentSetupError
          "Failed to change to 'lib' directory for building the shared libs.") }
  else
    base

/-- Outcome of the `test` stage: final configuration, the test targets run
in order, and whether the non-aborting warning about the externally set
run-tests toggle was emitted. -/
structure TestOutcome where
  cfg : ATLASCfg
  targetsRun : List String
  warned : Bool
deriving DecidableEq, Repr

/-- The `ATLAS.test` stage: warn (without aborting) when the run-tests
toggle was externally set, then unconditionally set the toggle to each of
the three fixed targets in order and run the generic test step on each. -/
def test (cfg : ATLASCfg) : TestOutcome :=
  let warned := truthy cfg.runtest
  let cfg1 := { cfg with runtest := some "check" }
  let r1 := Application.test cfg1
  let cfg2 := { cfg1 with runtest := some "ptcheck" }
  let r2 := Application.test cfg2
  let cfg3 := { cfg2 with runtest := some "time" }
  let r3 := Application.test cfg3
  { cfg := cfg3, targetsRun := r1 ++ r2 ++ r3, warned := warned }

/-- The fixed library name list of the sanity check. -/
def atlasLibs : List String :=
  ["atlas", "cblas", "f77blas", "lapack", "ptcblas", "ptf77blas"]

/-- The manifest `ATLAS.sanitycheck` computes when `sanityCheckPaths` is
unset: the two headers, the six static archives, the shared objects when
shared libraries were built, and the `include/atlas` directory. -/
def computeSanityCheckPaths (cfg : ATLASCfg) : SanityPaths :=
  let static_libs := atlasLibs.map (fun x => "lib/lib" ++ x ++ ".a")
  let shared_libs :=
    if cfg.sharedlibs then atlasLibs.map (fun x => "lib/lib" ++ x ++ ".so")
    else []
  { files := (["cblas.h", "clapack.h"].map (fun x => "include/" ++ x)) ++
      static_libs ++ shared_libs,
    dirs := ["include/atlas"] }

/-- The `ATLAS.sanitycheck` stage up to the delegation to the generic
existence check: when no manifest is set, store the computed one; an already
present manifest is kept. -/
def sanitycheck (cfg : ATLASCfg) : ATLASCfg :=
  if cfg.sanityCheckPaths.isSome then cfg
  else { cfg with sanityCheckPaths := some (computeSanityCheckPaths cfg) }

/-- Flag sequence the spec mandates (its section 4.1 steps 1 to 4, amended
with the compiler-naming fragment of step 6): the 64-bit flag, the
throttling-check-disable flag, the netlib-LAPACK flag, the
build-variant and -fPIC flags, then the compiler-naming fragment. -/
def specConfigFlags (it fl sl pic : Bool) (root : String) (cc f77 : Option String) :
    List String :=
  ["-b 64"] ++
  (if it then ["-Si cputhrchk 0"] else []) ++
  (if fl then [" --with-netlib-lapack=" ++ root ++ "/lib/liblapack.a"] else []) ++
  (if sl || pic then ["-Fa alg -fPIC"] else []) ++
  ["-C ic " ++ pyStr cc ++ " -C if " ++ pyStr f77]

/-- Does the string end in the given tail? -/
def endsIn (tail s : String) : Bool :=
  tail.toList.isSuffixOf s.toList

/-- The sanity-check manifest files without shared objects: the two headers
and the six static archives. -/
def staticManifestFiles : List String :=
  ["include/cblas.h", "include/clapack.h",
   "lib/libatlas.a", "lib/libcblas.a", "lib/libf77blas.a",
   "lib/liblapack.a", "lib/libptcblas.a", "lib/libptf77blas.a"]

/-- The six additional shared-object manifest entries. -/
def sharedManifestFiles : List String :=
  ["lib/libatlas.so", "lib/libcblas.so", "lib/libf77blas.so",
   "lib/liblapack.so", "lib/libptcblas.so", "lib/libptf77blas.so"]

/-- A concrete configuration with the documented option defaults
(ignorethrottling and full_lapack off, sharedlibs on), an empty accumulated
option list and a driver-requested parallelism of 4. -/
def sampleCfg : ATLASCfg :=
  { ignorethrottling := false, full_lapack := false, sharedlibs := true,
    configopts := [], preconfigopts := "", startfrom := "/src/ATLAS",
    runtest := none, sanityCheckPaths := none, parallelism := 4 }

/-- A concrete environment with compilers set and no LAPACK root. -/
def sampleEnv : Env :=
  { SOFTROOTLAPACK := none, CC := some "gcc", F77 := some "g77" }

/-- A concrete environment with nothing set. -/
def emptyEnv : Env :=
  { SOFTROOTLAPACK := none, CC := none, F77 := none }

/-- Toolkit options with the PIC flag off. -/
def sampleTk : TkOpts := { pic := false }

/-- C1: when the shell invocation of configure returns a nonzero exit status
and the captured output contains (case-insensitively) a phrase of the form
"cpu throttling ... enabled", configure fails with the `ThrottlingDetected`
diagnostic carrying the remediation hint, not with `ConfigureFailed`. -/
theorem configure_classifies_throttling
    (cfg : ATLASCfg) (env : Env) (tk : TkOpts) (d : String) (cwd0 : List String)
    (out : String) (ec : Int)
    (hpath : (cfg.full_lapack && env.SOFTROOTLAPACK.isNone) = false)
    (hec : ec ≠ 0) (hth : throttlingSearch out = true) :
    (configure cfg env tk d true (fun _ => (out, ec)) cwd0).err =
      some (.ThrottlingDetected throttlingMsg) := by
  simp [configure, hpath, hec, hth]

/-- Witness for C1: a concrete run on the output "CPU throttling was
enabled" with exit status 1 yields the throttling diagnostic. -/
theorem configure_classifies_throttling_witness :
    (configure sampleCfg sampleEnv sampleTk "/sw" true
        (fun _ => ("CPU throttling was enabled", 1)) []).err =
      some (.ThrottlingDetected throttlingMsg) :=
  configure_classifies_throttling sampleCfg sampleEnv sampleTk "/sw" []
    "CPU throttling was enabled" 1 (by decide) (by decide) (by decide)

/-- C3: with `full_lapack` set and no `SOFTROOTLAPACK` in the environment,
configure fails with the `MissingDependency` diagnostic and executes zero
shell commands. -/
theorem configure_missing_lapack_aborts_before_shell
    (cfg : ATLASCfg) (env : Env) (tk : TkOpts) (d : String) (objdirOk : Bool)
    (shell : String → String × Int) (cwd0 : List String)
    (hfl : cfg.full_lapack = true) (hroot : env.SOFTROOTLAPACK = none) :
    (configure cfg env tk d objdirOk shell cwd0).err =
        some (.MissingDependency missingLapackMsg) ∧
      (configure cfg env tk d objdirOk shell cwd0).cmds = [] := by
  simp [configure, hfl, hroot]

/-- Witness for C3: a concrete run with `full_lapack` on and an empty
environment aborts with `MissingDependency` and records no command. -/
theorem configure_missing_lapack_aborts_before_shell_witness :
    (configure { sampleCfg with full_lapack := true } emptyEnv sampleTk "/sw"
        true (fun _ => ("", 0)) []).err =
        some (.MissingDependency missingLapackMsg) ∧
      (configure { sampleCfg with full_lapack := true } emptyEnv sampleTk "/sw"
        true (fun _ => ("", 0)) []).cmds = [] :=
  configure_missing_lapack_aborts_before_shell _ _ _ _ _ _ _ rfl rfl

/-- C4: `setparallelism` forces the effective parallelism to exactly 1
regardless of the externally requested value recorded in the configuration,
and none of the later stages (make, test, sanitycheck) changes it. -/
theorem setparallelism_forces_one (cfg : ATLASCfg) (a b : Bool)
    (shell : String → String × Int) (cwd0 : List String) :
    (setparallelism cfg).parallelism = 1 ∧
      (make (setparallelism cfg) a b shell cwd0).cfg.parallelism = 1 ∧
      (test (setparallelism cfg)).cfg.parallelism = 1 ∧
      (sanitycheck (setparallelism cfg)).parallelism = 1 := by
  refine ⟨rfl, ?_, rfl, ?_⟩
  · unfold make Application.make
    split
    · split
      · split <;> rfl
      · rfl
    · rfl
  · unfold sanitycheck
    split <;> rfl

/-- C5: with a nonzero exit status and output lacking the throttling
pattern, configure fails with `ConfigureFailed`, whose message embeds the
raw captured output; with exit status zero, configure succeeds. -/
theorem configure_generic_failure_and_zero_exit
    (cfg : ATLASCfg) (env : Env) (tk : TkOpts) (d : String) (cwd0 : List String)
    (out : String) (ec : Int)
    (hpath : (cfg.full_lapack && env.SOFTROOTLAPACK.isNone) = false) :
    (ec ≠ 0 → throttlingSearch out = false →
        (configure cfg env tk d true (fun _ => (out, ec)) cwd0).err =
          some (.ConfigureFailed (configureFailedMsg out))) ∧
      (∃ p q, configureFailedMsg out = p ++ out ++ q) ∧
      (ec = 0 →
        (configure cfg env tk d true (fun _ => (out, ec)) cwd0).err = none) := by
  refine ⟨fun hec hth => ?_,
    ⟨"configure output: ",
     "\nConfigure failed, not sure why (see output above).", rfl⟩,
    fun hec => ?_⟩
  · simp [configure, hpath, hec, hth]
  · simp [configure, hpath, hec]

/-- Witness for C5: on output "blah" with exit status 1 configure yields the
generic diagnostic; with exit status 0 it succeeds. -/
theorem configure_generic_failure_and_zero_exit_witness :
    (configure sampleCfg sampleEnv sampleTk "/sw" true
        (fun _ => ("blah", 1)) []).err =
        some (.ConfigureFailed (configureFailedMsg "blah")) ∧
      (configure sampleCfg sampleEnv sampleTk "/sw" true
        (fun _ => ("blah", 0)) []).err = none :=
  ⟨(configure_generic_failure_and_zero_exit sampleCfg sampleEnv sampleTk "/sw"
      [] "blah" 1 (by decide)).1 (by decide) (by decide),
    (configure_generic_failure_and_zero_exit sampleCfg sampleEnv sampleTk "/sw"
      [] "blah" 0 (by decide)).2.2 rfl⟩

/-- C8: the test stage runs exactly the three fixed targets check, ptcheck,
time in that order for every value of the run-tests toggle, and emits the
non-aborting warning exactly when the toggle was (truthily) set. -/
theorem test_runs_fixed_targets (cfg : ATLASCfg) :
    (test cfg).targetsRun = ["check", "ptcheck", "time"] ∧
      (test cfg).warned = truthy cfg.runtest :=
  ⟨rfl, rfl⟩

/-- C10: after the test stage returns, the shared configuration record's
run-tests option equals the last fixed target "time", whatever the external
driver had set it to. -/
theorem test_leaves_runtest_time (cfg : ATLASCfg) :
    (test cfg).cfg.runtest = some "time" :=
  rfl

/-- Counterexample to C2: with all three options off and PIC off, steps 1 to
4 mandate the single flag "-b 64", yet the sequence configure accumulates is
not that singleton — it also holds the compiler-naming fragment. -/
theorem configopts_exceed_steps_one_to_four :
    (configure { sampleCfg with sharedlibs := false } sampleEnv sampleTk "/sw"
        true (fun _ => ("", 0)) []).cfg.configopts ≠ ["-b 64"] := by
  decide

/-- C2 (amended): starting from an empty option sequence, configure
accumulates exactly the flags of spec section 4.1 steps 1 to 4 in that
order, followed by the compiler-naming fragment of step 6, and no others. -/
theorem configure_flag_sequence
    (cfg : ATLASCfg) (env : Env) (tk : TkOpts) (d : String)
    (shell : String → String × Int) (cwd0 : List String) (root : String)
    (h0 : cfg.configopts = [])
    (hroot : cfg.full_lapack = true → env.SOFTROOTLAPACK = some root) :
    (configure cfg env tk d true shell cwd0).cfg.configopts =
      specConfigFlags cfg.ignorethrottling cfg.full_lapack cfg.sharedlibs
        tk.pic root env.CC env.F77 := by
  cases hfl : cfg.full_lapack with
  | false =>
    cases hit : cfg.ignorethrottling <;> cases hsl : cfg.sharedlibs <;>
      cases hpic : tk.pic <;>
      simp [configure, preCompilerOpts, optsAfterThrottling, compilerFlag,
        specConfigFlags, h0, hit, hfl, hsl, hpic] <;>
      split_ifs <;> rfl
  | true =>
    have hr : env.SOFTROOTLAPACK = some root := hroot hfl
    cases hit : cfg.ignorethrottling <;> cases hsl : cfg.sharedlibs <;>
      cases hpic : tk.pic <;>
      simp [configure, preCompilerOpts, optsAfterThrottling, compilerFlag,
        specConfigFlags, h0, hit, hfl, hsl, hpic, hr, pyStr] <;>
      split_ifs <;> rfl

/-- Witness for C2 (amended): a concrete run with every option on and the
LAPACK root present accumulates precisely the amended flag sequence. -/
theorem configure_flag_sequence_witness :
    (configure { sampleCfg with ignorethrottling := true, full_lapack := true }
        { sampleEnv with SOFTROOTLAPACK := some "/lap" } sampleTk "/sw" true
        (fun _ => ("", 0)) []).cfg.configopts =
      specConfigFlags true true true false "/lap" (some "gcc") (some "g77") :=
  configure_flag_sequence _ _ _ _ _ _ _ rfl (fun _ => rfl)

/-- C6: with the manifest unset, sanitycheck computes it purely from
`sharedlibs`: with shared libraries off it holds exactly the two headers,
the six static archives and the include/atlas directory, with no shared
object; with them on it additionally holds the six shared objects. -/
theorem sanitycheck_manifest (cfg : ATLASCfg)
    (h : cfg.sanityCheckPaths = none) :
    (cfg.sharedlibs = false →
        (sanitycheck cfg).sanityCheckPaths =
          some { files := staticManifestFiles, dirs := ["include/atlas"] } ∧
          staticManifestFiles.all (fun f => !(endsIn ".so" f)) = true) ∧
      (cfg.sharedlibs = true →
        (sanitycheck cfg).sanityCheckPaths =
          some { files := staticManifestFiles ++ sharedManifestFiles,
                 dirs := ["include/atlas"] }) := by
  constructor
  · intro hs
    refine ⟨?_, by decide⟩
    simp [sanitycheck, h, computeSanityCheckPaths, atlasLibs, hs,
      staticManifestFiles]
  · intro hs
    simp [sanitycheck, h, computeSanityCheckPaths, atlasLibs, hs,
      staticManifestFiles, sharedManifestFiles]

/-- Witness for C6: the concrete manifests computed with shared libraries
off and on. -/
theorem sanitycheck_manifest_witness :
    ((sanitycheck { sampleCfg with sharedlibs := false }).sanityCheckPaths =
        some { files := staticManifestFiles, dirs := ["include/atlas"] }) ∧
      ((sanitycheck sampleCfg).sanityCheckPaths =
        some { files := staticManifestFiles ++ sharedManifestFiles,
               dirs := ["include/atlas"] }) :=
  ⟨((sanitycheck_manifest { sampleCfg with sharedlibs := false } rfl).1 rfl).1,
    (sanitycheck_manifest sampleCfg rfl).2 rfl⟩

/-- Counterexample to C7: a concrete successful configure run started in the
directory "build" returns with the working directory changed (to its obj
subdirectory), so configure does not restore the prior working directory
even on its success path. -/
theorem configure_changes_cwd_on_success :
    (configure sampleCfg sampleEnv sampleTk "/sw" true (fun _ => ("", 0))
        ["build"]).err = none ∧
      (configure sampleCfg sampleEnv sampleTk "/sw" true (fun _ => ("", 0))
        ["build"]).cwd ≠ ["build"] := by
  decide

/-- C7 (amended): the make stage restores the prior working directory when
both of its directory changes succeed; the configure stage does not restore
it — on success it deliberately leaves the working directory in the freshly
created obj build subdirectory, where the later stages run. -/
theorem make_restores_cwd_and_configure_enters_obj
    (cfg : ATLASCfg) (env : Env) (tk : TkOpts) (d : String)
    (shell : String → String × Int) (cwd0 : List String) :
    (make cfg true true shell cwd0).cwd = cwd0 ∧
      ((configure cfg env tk d true shell cwd0).err = none →
        (configure cfg env tk d true shell cwd0).cwd = cwd0 ++ ["obj"]) := by
  constructor
  · cases hs : cfg.sharedlibs <;> simp [make, Application.make, hs]
  · intro h
    by_cases hb : (cfg.full_lapack && env.SOFTROOTLAPACK.isNone) = true
    · simp [configure, hb] at h
    · have hb' : (cfg.full_lapack && env.SOFTROOTLAPACK.isNone) = false :=
        Bool.eq_false_iff.mpr hb
      simp only [configure, hb', Bool.false_eq_true, if_false]
      split_ifs <;> rfl

/-- C9 counterexample: with `CC` and `F77` absent from the environment, the
compiler-naming fragment embedded in the option sequence carries the string
"None" for each value — not the empty string the claim asserts. -/
theorem compiler_flag_renders_none :
    (configure sampleCfg emptyEnv sampleTk "/sw" true (fun _ => ("", 0))
        []).cfg.configopts =
        ["-b 64", "-Fa alg -fPIC", "-C ic None -C if None"] ∧
      ("-C ic None -C if None" : String) ≠ "-C ic  -C if " := by
  decide

/-- C9 (amended): configure appends the compiler-naming fragment built from
the raw `CC` and `F77` environment values without validating that they are
set, and an absent variable propagates as the string "None" (the Python
rendering of the absent value). -/
theorem configure_compiler_flags_unvalidated
    (cfg : ATLASCfg) (env : Env) (tk : TkOpts) (d : String)
    (shell : String → String × Int) (cwd0 : List String)
    (hpath : (cfg.full_lapack && env.SOFTROOTLAPACK.isNone) = false) :
    (configure cfg env tk d true shell cwd0).cfg.configopts =
        preCompilerOpts cfg env tk ++ [compilerFlag env] ∧
      pyStr none = "None" := by
  refine ⟨?_, rfl⟩
  simp only [configure, hpath, Bool.false_eq_true, if_false]
  split_ifs <;> rfl

/-- Witness for C9 (amended): the concrete run with an empty environment. -/
theorem configure_compiler_flags_unvalidated_witness :
    (configure sampleCfg emptyEnv sampleTk "/sw" true (fun _ => ("", 0))
        []).cfg.configopts =
        preCompilerOpts sampleCfg emptyEnv sampleTk ++ [compilerFlag emptyEnv] ∧
      pyStr none = "None" :=
  configure_compiler_flags_unvalidated _ _ _ _ _ _ (by decide)

end Atlas
